import Mathlib

/-!
# Verification of the ExoRad2 target-ingestion and payload-preparation layer

Shallow embedding of `exorad/models/target.py` and
`exorad/tasks/instrumentHandler.py`.  Python exceptions are modelled with
`Except PyErr`; Python attribute dictionaries with association lists in
which a later binding shadows an earlier one (as `dict.update` and
attribute assignment do); the external astropy unit parser (out of scope
per the spec, section 1) is a parameter `uParse : String → Option PhysUnit`
whose `none` result stands for the `ValueError` that `astropy.units.Unit`
raises on an unrecognised string.
-/

set_option autoImplicit false

deriving instance DecidableEq for Except

namespace ExoRad

universe u v

/-- A physical unit handle, as returned by the external unit-algebra
service; only its identity matters here, so it is a plain name. -/
abbrev PhysUnit := String

/-- The Python exception kinds the embedded code can raise. -/
inductive PyErr where
  | attributeError
  | typeError
  | valueError
  | indexError
  | keyError
  | ioError
deriving DecidableEq, Repr

/-- A Python value appearing in a catalog cell or target attribute:
`none` is Python `None`, `str` a string cell, `num` a numeric cell,
`qty` a numeric value with an attached unit (an astropy `Quantity`). -/
inductive PyVal where
  | none
  | str (s : String)
  | num (x : Int)
  | qty (x : Int) (u : PhysUnit)
deriving DecidableEq, Repr

/-- An attribute dictionary (`obj.__dict__`): later bindings shadow
earlier ones, as repeated Python assignments do. -/
abbrev Attrs := List (String × PyVal)

/-- `dict(zip(keys, vals))` as used by `create_target_list`
(`target.py` lines 103 and 107): pairs are truncated to the shorter
list, and on duplicate keys the later pair wins (see `dictGet`). -/
def dictZip (ks : List String) (vs : List PyVal) : Attrs :=
  List.zip ks vs

/-- Attribute read (`getattr`) on an object whose `__dict__` was filled by
`update`: the most recent binding wins; a missing attribute raises
`AttributeError`. -/
def dictGet (a : Attrs) (k : String) : Except PyErr PyVal :=
  match a.reverse.lookup k with
  | some v => Except.ok v
  | Option.none => Except.error PyErr.attributeError

/-- Attribute assignment `obj.k = v`. -/
def attrSet (a : Attrs) (k : String) (v : PyVal) : Attrs :=
  a ++ [(k, v)]

/-- Sequential evaluation of `f` over a list with Python exception
propagation: the first raised exception aborts the whole traversal.
This is the shape shared by the list comprehensions and `for` loops of
`target.py`. -/
def mapE {α : Type u} {β : Type v} (f : α → Except PyErr β) :
    List α → Except PyErr (List β)
  | [] => Except.ok []
  | a :: as =>
    match f a with
    | Except.error e => Except.error e
    | Except.ok b =>
      match mapE f as with
      | Except.error e => Except.error e
      | Except.ok bs => Except.ok (b :: bs)

theorem mapE_ok_length {α : Type u} {β : Type v} (f : α → Except PyErr β) :
    ∀ (l : List α) (bs : List β), mapE f l = Except.ok bs → bs.length = l.length := by
  intro l
  induction l with
  | nil => intro bs h; simp [mapE] at h; simp [← h]
  | cons a as ih =>
    intro bs h
    unfold mapE at h
    cases hfa : f a with
    | error e => rw [hfa] at h; exact absurd h (by simp)
    | ok b =>
      rw [hfa] at h
      cases hrec : mapE f as with
      | error e => rw [hrec] at h; exact absurd h (by simp)
      | ok bs' =>
        rw [hrec] at h
        simp at h
        subst h
        simp [ih bs' hrec]

theorem mapE_ok_get {α : Type u} {β : Type v} (f : α → Except PyErr β) :
    ∀ (l : List α) (bs : List β), mapE f l = Except.ok bs →
      ∀ (n : Nat) (hn : n < l.length) (hn' : n < bs.length),
        f (l.get ⟨n, hn⟩) = Except.ok (bs.get ⟨n, hn'⟩) := by
  intro l
  induction l with
  | nil => intro bs _ n hn; exact absurd hn (by simp)
  | cons a as ih =>
    intro bs h n hn hn'
    unfold mapE at h
    cases hfa : f a with
    | error e => rw [hfa] at h; exact absurd h (by simp)
    | ok b =>
      rw [hfa] at h
      cases hrec : mapE f as with
      | error e => rw [hrec] at h; exact absurd h (by simp)
      | ok bs' =>
        rw [hrec] at h
        simp at h
        subst h
        cases n with
        | zero => simpa using hfa
        | succ m =>
          simp only [List.get_cons_succ]
          exact ih bs' hrec m (by simpa using hn) (by simpa using hn')

theorem mapE_ok_map {α : Type u} {β : Type v} (f : α → Except PyErr β) (g : α → β) :
    ∀ (l : List α), (∀ a ∈ l, f a = Except.ok (g a)) →
      mapE f l = Except.ok (l.map g) := by
  intro l
  induction l with
  | nil => intro _; simp [mapE]
  | cons a as ih =>
    intro h
    unfold mapE
    rw [h a (by simp), ih (fun b hb => h b (by simp [hb]))]
    simp

theorem mapE_ok_of_forall {α : Type u} {β : Type v} (f : α → Except PyErr β) :
    ∀ (l : List α), (∀ a ∈ l, ∃ b, f a = Except.ok b) →
      ∃ bs, mapE f l = Except.ok bs := by
  intro l
  induction l with
  | nil => intro _; exact ⟨[], rfl⟩
  | cons a as ih =>
    intro h
    obtain ⟨b, hb⟩ := h a (by simp)
    obtain ⟨bs, hbs⟩ := ih (fun c hc => h c (by simp [hc]))
    exact ⟨b :: bs, by unfold mapE; rw [hb, hbs]⟩

theorem mapE_error_of_mem {α : Type u} {β : Type v} (f : α → Except PyErr β) :
    ∀ (l : List α) (a : α), a ∈ l → (∀ b, f a ≠ Except.ok b) →
      ∃ e, mapE f l = Except.error e := by
  intro l
  induction l with
  | nil => intro a ha; exact absurd ha (by simp)
  | cons c cs ih =>
    intro a ha hfa
    unfold mapE
    cases hfc : f c with
    | error e => exact ⟨e, rfl⟩
    | ok b =>
      rcases List.mem_cons.mp ha with hac | hacs
      · subst hac; exact absurd hfc (hfa b)
      · obtain ⟨e, he⟩ := ih a hacs hfa
        rw [he]
        exact ⟨e, rfl⟩

/-! ## String helpers (`target.py` lines 12-13)

Python `str.replace` with a one-character pattern and empty replacement
deletes every occurrence of that character; `str.lower` lower-cases each
character (the catalog names in scope are ASCII, where Python's and
Lean's per-character lower-casing agree). -/

/-- Delete every occurrence of one character, i.e. Python
`s.replace(c, "")`. -/
def removeChar (c : Char) (s : String) : String :=
  String.mk (s.toList.filter (fun x => x ≠ c))

/-- `compactString` (`target.py` line 12):
`string.replace(' ', '').replace('-', '').lower()`. -/
def compactString (s : String) : String :=
  String.mk (((s.toList.filter (fun x => x ≠ ' ')).filter
    (fun x => x ≠ '-')).map Char.toLower)

/-- `stripUnitString` (`target.py` line 13):
`string.replace('[', '').replace(']', '')`. -/
def stripUnitString (s : String) : String :=
  String.mk ((s.toList.filter (fun x => x ≠ '[')).filter (fun x => x ≠ ']'))

/-- Python `k.split(' ')` (split on every single space, keeping empty
tokens): auxiliary on character lists. -/
def splitChar (c : Char) : List Char → List (List Char)
  | [] => [[]]
  | x :: xs =>
    let r := splitChar c xs
    if x = c then [] :: r
    else
      match r with
      | [] => [[x]]
      | g :: gs => (x :: g) :: gs

/-- Python `k.split(' ')`. -/
def pySplitSpace (s : String) : List String :=
  (splitChar ' ' s.toList).map String.mk

/-- Boolean prefix test on character lists. -/
def isPrefixOfB : List Char → List Char → Bool
  | [], _ => true
  | _ :: _, [] => false
  | a :: as, b :: bs => a = b && isPrefixOfB as bs

/-- Boolean contiguous-substring test on character lists. -/
def isInfixOfB (p : List Char) : List Char → Bool
  | [] => isPrefixOfB p []
  | b :: bs => isPrefixOfB p (b :: bs) || isInfixOfB p bs

/-- Python `sub in hay` (substring containment), used by the header
filters `"star" in k` / `"planet" in k` (`target.py` lines 212, 216,
235, 239). -/
def strContains (hay sub : String) : Bool :=
  isInfixOfB sub.toList hay.toList

/-- Python `re.search(pat, s)` for a pattern free of regex
metacharacters (true of the compacted names and queries in scope):
succeeds exactly when `pat` occurs in `s` as a contiguous substring. -/
def reSearch (pat s : String) : Bool :=
  isInfixOfB pat.toList s.toList

/-- Python `str(v)` for the values that reach the search and name
fields; the `qty` case renders an astropy `Quantity` as value-space-unit. -/
def pyStr : PyVal → String
  | PyVal.none => "None"
  | PyVal.str s => s
  | PyVal.num x => toString x
  | PyVal.qty x u => toString x ++ " " ++ u

/-! ## The Target object (`target.py` lines 16-61) -/

/-- A `Target` as assembled by `BaseTargetList.create_target_list`: the
`star` and (optional) `planet` sub-records are `Target()` objects whose
`__dict__` was filled via `update`, so they are attribute dictionaries;
`planet = none` models the `planet` attribute never having been
assigned (star-only assembly). -/
structure TargetRec where
  star : Attrs
  planet : Option Attrs
  name : PyVal
  id : Nat
deriving DecidableEq, Repr

/-- Embedding of `Target.__init__` (`target.py` lines 21-30).  The body
reads

    self.set_log_name()
    luminosity = None
    sed = None
    model = None
    table = None
    id = None
    star = None
    planet = None
    name = None

Every assignment lacks the `self.` qualifier, so each binds a local
variable of `__init__`, not an instance attribute; the locals are
discarded when the constructor returns.  `set_log_name` is logging setup
(out of scope per the spec, section 1) and assigns none of the model
attributes.  The first component is the resulting instance `__dict__`
(restricted to the model attributes), the second the local frame at the
end of the constructor body. -/
def Target_init : Attrs × List (String × PyVal) :=
  ([],
   [("luminosity", PyVal.none), ("sed", PyVal.none), ("model", PyVal.none),
    ("table", PyVal.none), ("id", PyVal.none), ("star", PyVal.none),
    ("planet", PyVal.none), ("name", PyVal.none)])

/-- The argument of `Target.update_target`: a `Star`, a `CustomSed`, or
any other Python object (carrying only its type name). -/
inductive SourceObj where
  | star (luminosity sed model : PyVal)
  | customSed (luminosity sed model : PyVal)
  | other (typeName : String)
deriving DecidableEq, Repr

/-- Python semantics of the expression written in `target.py` line 48 as
a format call with conversion spec `s` applied to `type(obj)`: class
objects inherit `object.__format__`, which raises `TypeError`
("unsupported format string passed to type.__format__") for every
non-empty format spec, so the message is never produced. -/
def formatTypeSpecS (_typeName : String) : Except PyErr String :=
  Except.error PyErr.typeError

/-- `Target.update_target` (`target.py` lines 40-48).  For a `Star` or
`CustomSed` the star sub-record's `luminosity`, `sed` and `model`
attributes are assigned and a debug message logged; for any other object
the code attempts to build the warning text by formatting `type(obj)`
with spec `s`, which raises `TypeError` before `self.warning` is ever
called.  Returns the updated target together with the log messages
emitted. -/
def update_target (t : TargetRec) : SourceObj → Except PyErr (TargetRec × List String)
  | SourceObj.star l s m =>
    Except.ok ({ t with star := attrSet (attrSet (attrSet t.star "luminosity" l) "sed" s) "model" m },
      ["target updated"])
  | SourceObj.customSed l s m =>
    Except.ok ({ t with star := attrSet (attrSet (attrSet t.star "luminosity" l) "sed" s) "model" m },
      ["target updated"])
  | SourceObj.other ty =>
    match formatTypeSpecS ty with
    | Except.error e => Except.error e
    | Except.ok msg => Except.ok (t, [msg ++ " not implemented"])

/-! ## `BaseTargetList.create_target_list` (`target.py` lines 80-126) -/

/-- The body of the star-only loop (`target.py` lines 114-125), with the
running `enumerate` index made explicit:

    for i, star in enumerate(star_data):
        target = Target(); target.star = Target(); target.id = i
        star_dict = dict(zip(star_keys, star))
        target.star.__dict__.update(star_dict)
        target.name = target.star.name
        target_list.append(target)

`target.star.name` raises `AttributeError` when the zipped dictionary
has no `name` key, aborting the whole loop. -/
def starTargetsFrom (ks : List String) (i : Nat) :
    List (List PyVal) → Except PyErr (List TargetRec)
  | [] => Except.ok []
  | row :: rows =>
    match dictGet (dictZip ks row) "name" with
    | Except.error e => Except.error e
    | Except.ok nm =>
      match starTargetsFrom ks (i + 1) rows with
      | Except.error e => Except.error e
      | Except.ok rest =>
        Except.ok ({ star := dictZip ks row, planet := Option.none,
                     name := nm, id := i } :: rest)

/-- The body of the star-and-planet loop (`target.py` lines 98-113) over
the already-zipped row pairs:

    for i, (star, planet) in enumerate(zip(star_data, planet_data)):
        target = Target(); target.planet = Target(); target.star = Target()
        planet_dict = dict(zip(planet_keys, planet))
        target.planet.__dict__.update(planet_dict)
        star_dict = dict(zip(star_keys, star))
        target.star.__dict__.update(star_dict)
        target.name = target.planet.name
        target.id = i
        target_list.append(target)
-/
def planetTargetsFrom (sks pks : List String) (i : Nat) :
    List (List PyVal × List PyVal) → Except PyErr (List TargetRec)
  | [] => Except.ok []
  | sp :: rest =>
    match dictGet (dictZip pks sp.2) "name" with
    | Except.error e => Except.error e
    | Except.ok nm =>
      match planetTargetsFrom sks pks (i + 1) rest with
      | Except.error e => Except.error e
      | Except.ok tl =>
        Except.ok ({ star := dictZip sks sp.1, planet := some (dictZip pks sp.2),
                     name := nm, id := i } :: tl)

/-- `BaseTargetList.create_target_list` (`target.py` lines 80-126).  The
four arguments are the results of `self.star_keys()`, `self.star_data()`,
`self.planet_keys()` and `self.planet_data()`, each of which may raise.
The star calls happen first, unguarded; the planet calls are wrapped in

    try:
        planet_keys = self.planet_keys()
        planet_data = self.planet_data()
    except: pass

so any failure of either leaves `planet_data = None` (and
`planet_data()` is never evaluated when `planet_keys()` already raised).
The branch condition `if planet_data:` is Python truthiness: the planet
loop runs only when `planet_data` is a non-empty list. -/
def create_target_list (skE : Except PyErr (List String))
    (sdE : Except PyErr (List (List PyVal)))
    (pkE : Except PyErr (List String))
    (pdE : Except PyErr (List (List PyVal))) : Except PyErr (List TargetRec) :=
  match skE with
  | Except.error e => Except.error e
  | Except.ok sks =>
    match sdE with
    | Except.error e => Except.error e
    | Except.ok sdata =>
      match pkE, pdE with
      | Except.ok pks, Except.ok pdata =>
        if pdata.isEmpty then starTargetsFrom sks 0 sdata
        else planetTargetsFrom sks pks 0 (sdata.zip pdata)
      | _, _ => starTargetsFrom sks 0 sdata

/-! ## `BaseTargetList.searchTarget` (`target.py` lines 132-142) -/

/-- Attribute read `target.planet`: raises `AttributeError` when the
assembler never assigned the attribute (star-only targets). -/
def planetAttr (t : TargetRec) : Except PyErr Attrs :=
  match t.planet with
  | some p => Except.ok p
  | Option.none => Except.error PyErr.attributeError

/-- `target.planet.name` as one read chain. -/
def planetNameOf (t : TargetRec) : Except PyErr PyVal :=
  match planetAttr t with
  | Except.error e => Except.error e
  | Except.ok p => dictGet p "name"

/-- The loop of `searchTarget`: for each target evaluate

    re.search(searchName, compactString(str(target.star.name))) or \
    re.search(searchName, compactString(str(target.planet.name)))

with Python's short-circuit `or`: `target.planet` is only read when the
star name did not match. -/
def searchLoop (searchName : String) : List TargetRec → Except PyErr (List TargetRec)
  | [] => Except.ok []
  | t :: ts =>
    match dictGet t.star "name" with
    | Except.error e => Except.error e
    | Except.ok sname =>
      if reSearch searchName (compactString (pyStr sname)) then
        match searchLoop searchName ts with
        | Except.error e => Except.error e
        | Except.ok rest => Except.ok (t :: rest)
      else
        match planetNameOf t with
        | Except.error e => Except.error e
        | Except.ok pname =>
          if reSearch searchName (compactString (pyStr pname)) then
            match searchLoop searchName ts with
            | Except.error e => Except.error e
            | Except.ok rest => Except.ok (t :: rest)
          else searchLoop searchName ts

/-- `BaseTargetList.searchTarget` (`target.py` lines 132-142): compact
the query once, then scan the assembled target list. -/
def searchTarget (ts : List TargetRec) (name : String) : Except PyErr (List TargetRec) :=
  searchLoop (compactString name) ts

/-- Whether the star name of a target matches the (already compacted)
query, reading the attributes non-destructively; used to state what
`searchTarget` returns. -/
def starMatch (searchName : String) (t : TargetRec) : Bool :=
  match dictGet t.star "name" with
  | Except.ok v => reSearch searchName (compactString (pyStr v))
  | Except.error _ => false

/-- Same for the planet name. -/
def planetMatch (searchName : String) (t : TargetRec) : Bool :=
  match planetNameOf t with
  | Except.ok v => reSearch searchName (compactString (pyStr v))
  | Except.error _ => false

/-- A target matches when its star name or its planet name matches. -/
def matchesB (searchName : String) (t : TargetRec) : Bool :=
  starMatch searchName t || planetMatch searchName t

/-! ## Unit parsing

`astropy.units.Unit` is an external collaborator (spec, sections 1 and
6): an opaque parser that returns a unit handle or raises `ValueError`
on an unrecognised string.  It is a parameter `uParse`; `uUnit` wraps it
as the raising call the Python code makes. -/

/-- The external `u.Unit(s)` call: `uParse s = none` models the
`ValueError` astropy raises on an unrecognised unit string. -/
def uUnit (uParse : String → Option PhysUnit) (s : String) : Except PyErr PhysUnit :=
  match uParse s with
  | some d => Except.ok d
  | Option.none => Except.error PyErr.valueError

/-- A concrete instance of the external unit parser covering the unit
names exercised by the spec's examples; everything else is
unrecognised.  The empty string parses as the dimensionless unit, as in
astropy. -/
def astropyUnitTable : String → Option PhysUnit := fun s =>
  if s = "K" ∨ s = "Rsun" ∨ s = "Rjup" ∨ s = "um" ∨ s = "" then some s
  else Option.none

/-- The per-column unit handling of `XLXSTargetList.__parseData__`
(`target.py` lines 163-172):

    str_unit = Sheet.cell_value(rowx=self.units_row, colx=col)
    if len(str_unit) > 0:
        try:
            dim = u.Unit(stripUnitString(str_unit))
        except ValueError:
            self.warning('Unrecognised physical units')
            dim = 1
    else:
        dim = 1

The result carries the parsed unit (`none` is the dimensionless `dim =
1`) and the warnings logged; the `except ValueError` arm catches the
only exception the unit parser raises. -/
def xlsx_unit_of (uParse : String → Option PhysUnit) (str_unit : String) :
    Except PyErr (Option PhysUnit × List String) :=
  if 0 < str_unit.length then
    match uUnit uParse (stripUnitString str_unit) with
    | Except.ok d => Except.ok (some d, [])
    | Except.error PyErr.valueError =>
      Except.ok (Option.none, ["Unrecognised physical units"])
    | Except.error e => Except.error e
  else Except.ok (Option.none, [])

/-! ## `CSVTargetList` (`target.py` lines 203-255)

`ascii.read` produces a table of named columns; `star_keys`/`star_data`
and `planet_keys`/`planet_data` are textually identical up to the
selection token, so they are embedded once with the token as a
parameter. -/

/-- The table returned by `ascii.read`: ordered named columns of equal
length. -/
structure AsciiTable where
  cols : List (String × List PyVal)
deriving DecidableEq, Repr

/-- `self.tmpTab.keys()`. -/
def tabKeys (t : AsciiTable) : List String :=
  t.cols.map Prod.fst

/-- Column access by header name (headers in a table are distinct, so
first match suffices). -/
def getCol (t : AsciiTable) (k : String) : List PyVal :=
  (t.cols.lookup k).getD []

/-- `[k for k in self.tmpTab.keys() if token in k]`
(`target.py` lines 212, 216, 235, 239). -/
def selCols (t : AsciiTable) (token : String) : List String :=
  (tabKeys t).filter (fun k => strContains k token)

/-- `star_keys` / `planet_keys` (`target.py` lines 211-213, 234-236):
`[k.split(' ')[1] for k in s_col]` -- the index access raises
`IndexError` when a selected header has fewer than two tokens. -/
def entity_keys (t : AsciiTable) (token : String) : Except PyErr (List String) :=
  mapE (fun k =>
    match (pySplitSpace k).get? 1 with
    | some f => Except.ok f
    | Option.none => Except.error PyErr.indexError) (selCols t token)

/-- One step of the unit loop of `star_data` / `planet_data`
(`target.py` lines 218-223, 241-246):

    if len(k.split(' ')) == 3:
        un = k.split(' ')[2]
        units.append(1 * u.Unit(stripUnitString(un)))
    else:
        units.append(None)

The `u.Unit` call is *not* wrapped in any handler, so an unparseable
token propagates its `ValueError`. -/
def csv_unit_of (uParse : String → Option PhysUnit) (k : String) :
    Except PyErr (Option PhysUnit) :=
  if (pySplitSpace k).length = 3 then
    match uUnit uParse (stripUnitString ((pySplitSpace k).getD 2 "")) with
    | Except.ok d => Except.ok (some d)
    | Except.error e => Except.error e
  else Except.ok Option.none

/-- The whole `units` list, one entry per selected column. -/
def entity_units (uParse : String → Option PhysUnit) (t : AsciiTable)
    (token : String) : Except PyErr (List (Option PhysUnit)) :=
  mapE (csv_unit_of uParse) (selCols t token)

/-- `len(self.tmpTab[sel])`: the sub-table restricted to the selected
columns has the table's row count, or zero rows when no column is
selected. -/
def numRows (t : AsciiTable) (sel : List String) : Nat :=
  match sel with
  | [] => 0
  | k :: _ => (getCol t k).length

/-- `list(self.tmpTab[sel][i])`: row `i` of the selected columns, in
selection order. -/
def rowVals (t : AsciiTable) (sel : List String) (i : Nat) : List PyVal :=
  sel.map (fun k => (getCol t k).getD i (PyVal.str ""))

/-- `val[n] * units[n]` guarded by `units[n] is not None`
(`target.py` lines 228-230): a unit is attached to a numeric cell; the
subsequent `str(x) if isinstance(x, np.str_) else x` pass is the
identity in this model (strings are already `PyVal.str`).  Multiplying a
non-numeric cell by a unit would raise in numpy/astropy; no claim
exercises that case. -/
def applyUnit : PyVal → Option PhysUnit → Except PyErr PyVal
  | v, Option.none => Except.ok v
  | PyVal.num x, some d => Except.ok (PyVal.qty x d)
  | _, some _ => Except.error PyErr.typeError

/-- `star_data` / `planet_data` (`target.py` lines 215-232, 238-255):
parse the unit list once from the headers, then for every row multiply
each cell by its column's unit where one was parsed. -/
def entity_data (uParse : String → Option PhysUnit) (t : AsciiTable)
    (token : String) : Except PyErr (List (List PyVal)) :=
  match entity_units uParse t token with
  | Except.error e => Except.error e
  | Except.ok units =>
    let sel := selCols t token
    mapE (fun i =>
        mapE (fun vu => applyUnit vu.1 vu.2) ((rowVals t sel i).zip units))
      (List.range (numRows t sel))

/-! ## `instrumentHandler.py` -/

/-- The two instrument classes of the registry. -/
inductive InstrClass where
  | photometer
  | spectrometer
deriving DecidableEq, Repr

/-- The module-level registry (`instrumentHandler.py` lines 8-9):

    instruments = dict with keys photometer and spectrometer

Lookup is an exact (case-sensitive) dictionary access. -/
def instruments : List (String × InstrClass) :=
  [("photometer", InstrClass.photometer), ("spectrometer", InstrClass.spectrometer)]

/-- Observable effects of `BuildInstrument.execute` on the instrument
object: construction, the `build()` call, and the optional `write`. -/
inductive InstrEvent where
  | constructed (c : InstrClass) (nm : String)
  | built
  | written
deriving DecidableEq, Repr

/-- `BuildInstrument.execute` (`instrumentHandler.py` lines 57-69):

    try:
        instrumentClass = instruments[self.get_task_param('type')]
    except KeyError:
        self.error('invalid instrument class')
        raise ValueError
    instrument = instrumentClass(name, description, payload)
    instrument.build()
    if write: instrument.write(output)
    self.set_output(instrument)

Result: (error-log lines, instrument-object events, outcome).  On an
unknown type tag the error is logged, `ValueError` is raised and the
event list stays empty: no instrument object is constructed. -/
def buildInstrument_execute (ty nm : String) (write : Bool) :
    List String × List InstrEvent × Except PyErr InstrClass :=
  match instruments.lookup ty with
  | Option.none => (["invalid instrument class"], [], Except.error PyErr.valueError)
  | some c =>
    ([], [InstrEvent.constructed c nm, InstrEvent.built] ++
      (if write then [InstrEvent.written] else []),
     Except.ok c)

/-- How `BuildChannels.execute` derives the type tag it passes to
`BuildInstrument` (`instrumentHandler.py` line 113): the channel's
`channelClass.value`, lower-cased.  ASCII lower-casing, as for
`compactString`. -/
def channelType (channelClassValue : String) : String :=
  String.mk (channelClassValue.toList.map Char.toLower)

/-! ### `os.path.splitext` and the `PreparePayload` dispatch -/

/-- Python `str.rfind` on a character list: the greatest index holding
`c`, or `-1` when there is none. -/
def lastIdxOf (cs : List Char) (c : Char) : Int :=
  match ((List.range cs.length).filter (fun i => cs.getD i ' ' = c)).getLast? with
  | some j => (j : Int)
  | Option.none => -1

/-- `os.path.splitext` (posix): split at the last dot of the basename,
provided some non-dot character of the basename precedes it (the
leading-dots rule that keeps `.bashrc` extensionless); the returned
extension always carries its leading dot. -/
def splitext (p : String) : String × String :=
  if lastIdxOf p.toList '/' < lastIdxOf p.toList '.' then
    if (List.range ((lastIdxOf p.toList '.').toNat
          - (lastIdxOf p.toList '/' + 1).toNat)).any
        (fun k => ¬ p.toList.getD ((lastIdxOf p.toList '/' + 1).toNat + k) ' ' = '.') then
      (String.mk (p.toList.take (lastIdxOf p.toList '.').toNat),
       String.mk (p.toList.drop (lastIdxOf p.toList '.').toNat))
    else (p, "")
  else (p, "")

/-- The child tasks `PreparePayload.execute` can invoke. -/
inductive ChildTask where
  | loadOptions
  | buildChannels
  | loadPayload
deriving DecidableEq, Repr

/-- The observable behaviour of one `PreparePayload.execute` run: which
child tasks were invoked, what was logged at error level, and the
message of the raised exception, if any. -/
structure PrepareTrace where
  executed : List ChildTask
  errorLog : List String
  raised : Option String
deriving DecidableEq, Repr

/-- The dispatch of `PreparePayload.execute`
(`instrumentHandler.py` lines 200-227):

    ext = os.path.splitext(payload_file)[1]
    if ext == '.xml':
        payload = loadOptions(filename=payload_file)
        ... channels = buildChannels(...)
    elif ext == 'h5':
        payload, channels = loadPayload(input=payload_file)
    else:
        self.error('Unsupported payload format')
        raise IOError('Unsupported payload format')

The three task objects are constructed earlier in `execute` but invoked
only inside their branches.  The `output` task parameter only chooses
between the write-enabled `buildChannels` call (inside the scoped
`HDF5Output` store) and the plain one within the `.xml` branch; it does
not affect the dispatch, so it is not a parameter of this model. -/
def preparePayload_exec (payload_file : String) : PrepareTrace :=
  let ext := (splitext payload_file).2
  if ext = ".xml" then
    { executed := [ChildTask.loadOptions, ChildTask.buildChannels],
      errorLog := [], raised := Option.none }
  else if ext = "h5" then
    { executed := [ChildTask.loadPayload], errorLog := [], raised := Option.none }
  else
    { executed := [], errorLog := ["Unsupported payload format"],
      raised := some "Unsupported payload format" }

/-! ## Helper lemmas about `splitext` -/

theorem getLast?_mem {α : Type u} {l : List α} {a : α}
    (h : l.getLast? = some a) : a ∈ l := by
  obtain ⟨hne, rfl⟩ := List.mem_getLast?_eq_getLast (Option.mem_def.mpr h)
  exact List.getLast_mem hne

theorem lastIdxOf_ge (cs : List Char) (c : Char) : -1 ≤ lastIdxOf cs c := by
  unfold lastIdxOf
  cases h : ((List.range cs.length).filter (fun i => cs.getD i ' ' = c)).getLast? with
  | none => exact le_refl _
  | some j =>
    have hj : (-1 : Int) ≤ (j : Int) := by omega
    exact hj

theorem lastIdxOf_spec (cs : List Char) (c : Char) (j : Nat)
    (h : lastIdxOf cs c = (j : Int)) : j < cs.length ∧ cs.getD j ' ' = c := by
  unfold lastIdxOf at h
  cases hl : ((List.range cs.length).filter (fun i => cs.getD i ' ' = c)).getLast? with
  | none =>
    rw [hl] at h
    simp only [] at h
    exact absurd h (by omega)
  | some m =>
    rw [hl] at h
    simp only [] at h
    have hmj : m = j := by exact_mod_cast h
    subst hmj
    have hm := getLast?_mem hl
    have hmem := List.mem_filter.mp hm
    exact ⟨by simpa using hmem.1, by simpa using hmem.2⟩

theorem splitext_snd_shape (p : String) :
    (splitext p).2 = "" ∨ ∃ cs, (splitext p).2 = String.mk ('.' :: cs) := by
  unfold splitext
  split
  · split
    · right
      have h0 := lastIdxOf_ge p.toList '/'
      rename_i h1 _
      have hge : (0 : Int) ≤ lastIdxOf p.toList '.' := by omega
      obtain ⟨j, hj⟩ : ∃ j : Nat, lastIdxOf p.toList '.' = (j : Int) :=
        ⟨(lastIdxOf p.toList '.').toNat, (Int.toNat_of_nonneg hge).symm⟩
      obtain ⟨hlt, hdot⟩ := lastIdxOf_spec p.toList '.' j hj
      refine ⟨p.toList.drop (j + 1), ?_⟩
      have htn : (lastIdxOf p.toList '.').toNat = j := by omega
      have hdrop : p.toList.drop ((lastIdxOf p.toList '.').toNat)
          = '.' :: p.toList.drop (j + 1) := by
        rw [htn, List.drop_eq_getElem_cons hlt]
        congr 1
        rw [← List.getD_eq_getElem p.toList ' ' hlt, hdot]
      simp only [hdrop]
    · left; rfl
  · left; rfl

/-- No path has `os.path.splitext` extension equal to the bare string
`h5`: the extension is empty or starts with a dot.  Hence the
`elif ext == 'h5'` branch of `PreparePayload.execute` is unreachable. -/
theorem splitext_snd_ne_h5 (p : String) : (splitext p).2 ≠ "h5" := by
  rcases splitext_snd_shape p with h | ⟨cs, h⟩
  · rw [h]; intro hc; exact absurd (congrArg String.data hc) (by simp)
  · rw [h]; intro hc
    have hdata : '.' :: cs = ['h', '5'] := congrArg String.data hc
    simp at hdata

/-! ## Claim theorems -/

/-- C1.  The claim states that `PreparePayload.execute` dispatches every
`h5`-suffixed `payload_file` to `LoadPayload`.  The code computes
`ext = os.path.splitext(payload_file)[1]`, which keeps the leading dot
(`.h5`), and then compares it with the bare string `'h5'`; the
comparison can never succeed, so an `.h5` file falls through to the
fatal `Unsupported payload format` branch and `LoadPayload` is never
invoked.  This contradicts the clear intent of the code (the
`elif ext == 'h5'` branch, the `LoadPayload` task, and the docstring
advertising an h5 round trip): the code is the slip. -/
theorem preparePayload_h5_rejected :
    splitext "payload.h5" = ("payload", ".h5") ∧
    preparePayload_exec "payload.h5" =
      { executed := [], errorLog := ["Unsupported payload format"],
        raised := some "Unsupported payload format" } ∧
    (∀ p : String, (preparePayload_exec p).executed ≠ [ChildTask.loadPayload]) :=
  ⟨by decide, by decide, fun p => by
    unfold preparePayload_exec
    by_cases h1 : (splitext p).2 = ".xml"
    · simp [h1]
    · simp only [h1, if_false]
      rw [if_neg (splitext_snd_ne_h5 p)]
      simp⟩

/-- C9.  For every `payload_file` whose `splitext` extension is neither
`.xml` nor `h5`, `PreparePayload.execute` logs `Unsupported payload
format` at error level and raises `IOError` with that message, invoking
none of its child tasks (they are constructed earlier in `execute` but
only invoked inside the two dispatch branches). -/
theorem preparePayload_unknown_ext_rejected (p : String)
    (h1 : (splitext p).2 ≠ ".xml") (h2 : (splitext p).2 ≠ "h5") :
    preparePayload_exec p =
      { executed := [], errorLog := ["Unsupported payload format"],
        raised := some "Unsupported payload format" } := by
  unfold preparePayload_exec
  rw [if_neg h1, if_neg h2]

theorem preparePayload_unknown_ext_rejected_witness :
    (splitext "payload.txt").2 ≠ ".xml" ∧ (splitext "payload.txt").2 ≠ "h5" ∧
    preparePayload_exec "payload.txt" =
      { executed := [], errorLog := ["Unsupported payload format"],
        raised := some "Unsupported payload format" } :=
  ⟨by decide, by decide,
    preparePayload_unknown_ext_rejected "payload.txt" (by decide) (by decide)⟩

/-- C6 (amended).  `BuildInstrument.execute` resolves the instrument
class by an exact, case-sensitive dictionary lookup in the closed
registry with keys `photometer` and `spectrometer`; for every type tag
that is not exactly one of those keys it logs `invalid instrument
class`, raises `ValueError`, and performs no instrument-object event at
all -- in particular no construction.  (Case-insensitivity lives in the
caller: `BuildChannels` lower-cases `channelClass.value` before
invoking `BuildInstrument`.) -/
theorem buildInstrument_unknown_tag_raises (ty nm : String) (write : Bool)
    (h : instruments.lookup ty = Option.none) :
    buildInstrument_execute ty nm write =
      (["invalid instrument class"], [], Except.error PyErr.valueError) := by
  unfold buildInstrument_execute
  rw [h]

theorem buildInstrument_unknown_tag_raises_witness :
    instruments.lookup "bolometer" = Option.none ∧
    buildInstrument_execute "bolometer" "Bolo" false =
      (["invalid instrument class"], [], Except.error PyErr.valueError) :=
  ⟨by decide, buildInstrument_unknown_tag_raises "bolometer" "Bolo" false (by decide)⟩

/-- C6 counterexample to the claim as stated: resolution is *not*
case-insensitive.  The tag `Photometer` differs from a registry key
only by case, yet the lookup misses, the error is logged and
`ValueError` is raised with nothing constructed -- where case-insensitive
resolution would have built a photometer. -/
theorem buildInstrument_caseSensitive_cex :
    ("Photometer".toList.map Char.toLower = "photometer".toList) ∧
    instruments.lookup "photometer" = some InstrClass.photometer ∧
    buildInstrument_execute "Photometer" "Phot" false =
      (["invalid instrument class"], [], Except.error PyErr.valueError) := by
  refine ⟨by decide, by decide, by decide⟩

/-- C2.  The claim states that `update_target` on an object that is
neither a `Star` nor a `CustomSed` logs a warning and does not raise.
The warning text is built by formatting `type(obj)` with format spec
`s`; `type.__format__` (inherited from `object`) raises `TypeError` on
any non-empty format spec, so the call raises before `self.warning`
runs and no warning is ever logged.  (The target's state is indeed left
unchanged, because the exception fires while evaluating the argument.)
The `self.warning(...)` call makes the logging intent explicit; the
format spec is the slip, so this is a code bug. -/
theorem update_target_other_raises (t : TargetRec) (ty : String) :
    update_target t (SourceObj.other ty) = Except.error PyErr.typeError := rfl

/-- C10.  `Target.__init__` binds only local variables: a freshly
constructed `Target` carries none of the eight model attributes, its
local frame holds the eight `None` bindings that are then discarded,
and reading any of the attributes raises `AttributeError`. -/
theorem target_init_binds_locals_only :
    Target_init.1 = [] ∧
    Target_init.2.length = 8 ∧
    dictGet Target_init.1 "star" = Except.error PyErr.attributeError ∧
    dictGet Target_init.1 "planet" = Except.error PyErr.attributeError ∧
    dictGet Target_init.1 "name" = Except.error PyErr.attributeError ∧
    dictGet Target_init.1 "id" = Except.error PyErr.attributeError ∧
    dictGet Target_init.1 "luminosity" = Except.error PyErr.attributeError ∧
    dictGet Target_init.1 "sed" = Except.error PyErr.attributeError ∧
    dictGet Target_init.1 "model" = Except.error PyErr.attributeError ∧
    dictGet Target_init.1 "table" = Except.error PyErr.attributeError := by
  decide

/-! ## Loop invariants of `create_target_list` -/

theorem starTargetsFrom_spec (ks : List String) :
    ∀ (rows : List (List PyVal)) (i : Nat) (ts : List TargetRec),
      starTargetsFrom ks i rows = Except.ok ts →
      ts.length = rows.length ∧
      ∀ (j : Nat) (hj : j < ts.length),
        (ts.get ⟨j, hj⟩).id = i + j ∧
        (ts.get ⟨j, hj⟩).planet = Option.none ∧
        dictGet (ts.get ⟨j, hj⟩).star "name" = Except.ok (ts.get ⟨j, hj⟩).name := by
  intro rows
  induction rows with
  | nil =>
    intro i ts h
    unfold starTargetsFrom at h
    injection h with h
    subst h
    exact ⟨rfl, fun j hj => absurd hj (by simp)⟩
  | cons row rows ih =>
    intro i ts h
    unfold starTargetsFrom at h
    cases hnm : dictGet (dictZip ks row) "name" with
    | error e => rw [hnm] at h; exact absurd h (by simp)
    | ok nm =>
      rw [hnm] at h
      cases hrec : starTargetsFrom ks (i + 1) rows with
      | error e => rw [hrec] at h; exact absurd h (by simp)
      | ok rest =>
        rw [hrec] at h
        injection h with h
        subst h
        obtain ⟨hlen, hall⟩ := ih (i + 1) rest hrec
        refine ⟨by simp [hlen], ?_⟩
        intro j hj
        cases j with
        | zero => exact ⟨by simp, rfl, by simpa using hnm⟩
        | succ m =>
          have hm : m < rest.length := by simpa using hj
          obtain ⟨hid, hpl, hnmE⟩ := hall m hm
          refine ⟨?_, by simpa using hpl, by simpa using hnmE⟩
          simp only [List.get_cons_succ]
          omega

theorem starTargetsFrom_total (ks : List String) :
    ∀ (rows : List (List PyVal)) (i : Nat),
      (∀ row ∈ rows, ∃ v, dictGet (dictZip ks row) "name" = Except.ok v) →
      ∃ ts, starTargetsFrom ks i rows = Except.ok ts := by
  intro rows
  induction rows with
  | nil => intro i _; exact ⟨[], rfl⟩
  | cons row rows ih =>
    intro i h
    obtain ⟨v, hv⟩ := h row (by simp)
    obtain ⟨rest, hrest⟩ := ih (i + 1) (fun r hr => h r (by simp [hr]))
    refine ⟨{ star := dictZip ks row, planet := Option.none,
              name := v, id := i } :: rest, ?_⟩
    unfold starTargetsFrom
    rw [hv, hrest]

theorem planetTargetsFrom_spec (sks pks : List String) :
    ∀ (pairs : List (List PyVal × List PyVal)) (i : Nat) (ts : List TargetRec),
      planetTargetsFrom sks pks i pairs = Except.ok ts →
      ts.length = pairs.length ∧
      ∀ (j : Nat) (hj : j < ts.length),
        (ts.get ⟨j, hj⟩).id = i + j ∧
        ∃ pd, (ts.get ⟨j, hj⟩).planet = some pd ∧
          dictGet pd "name" = Except.ok (ts.get ⟨j, hj⟩).name := by
  intro pairs
  induction pairs with
  | nil =>
    intro i ts h
    unfold planetTargetsFrom at h
    injection h with h
    subst h
    exact ⟨rfl, fun j hj => absurd hj (by simp)⟩
  | cons sp rest ih =>
    intro i ts h
    unfold planetTargetsFrom at h
    cases hnm : dictGet (dictZip pks sp.2) "name" with
    | error e => rw [hnm] at h; exact absurd h (by simp)
    | ok nm =>
      rw [hnm] at h
      cases hrec : planetTargetsFrom sks pks (i + 1) rest with
      | error e => rw [hrec] at h; exact absurd h (by simp)
      | ok tl =>
        rw [hrec] at h
        injection h with h
        subst h
        obtain ⟨hlen, hall⟩ := ih (i + 1) tl hrec
        refine ⟨by simp [hlen], ?_⟩
        intro j hj
        cases j with
        | zero => exact ⟨by simp, dictZip pks sp.2, rfl, by simpa using hnm⟩
        | succ m =>
          have hm : m < tl.length := by simpa using hj
          obtain ⟨hid, pd, hpl, hnmE⟩ := hall m hm
          refine ⟨?_, pd, by simpa using hpl, by simpa using hnmE⟩
          simp only [List.get_cons_succ]
          omega

/-- C5.  When the planet section is absent -- `planet_keys()` raises,
or `planet_data()` raises, or `planet_data()` yields an empty list (the
delimited-text reader with no header containing `planet`) -- and every
star row resolves a `name`, `create_target_list` swallows the absence
locally (bare `except: pass` plus the falsy branch test) and returns
star-only targets: no error reaches the caller, every target's `planet`
attribute is unassigned, and every target's `name` equals its star
sub-record's `name`. -/
theorem create_target_list_star_fallback
    (sks : List String) (sdata : List (List PyVal))
    (pkE : Except PyErr (List String)) (pdE : Except PyErr (List (List PyVal)))
    (hp : (∃ e, pkE = Except.error e) ∨ (∃ e, pdE = Except.error e) ∨
      pdE = Except.ok [])
    (hname : ∀ row ∈ sdata, ∃ v, dictGet (dictZip sks row) "name" = Except.ok v) :
    ∃ ts, create_target_list (Except.ok sks) (Except.ok sdata) pkE pdE = Except.ok ts ∧
      ts.length = sdata.length ∧
      ∀ t ∈ ts, t.planet = Option.none ∧ dictGet t.star "name" = Except.ok t.name := by
  obtain ⟨ts, hts⟩ := starTargetsFrom_total sks sdata 0 hname
  obtain ⟨hlen, hall⟩ := starTargetsFrom_spec sks sdata 0 ts hts
  have hmem : ∀ t ∈ ts, t.planet = Option.none ∧
      dictGet t.star "name" = Except.ok t.name := by
    intro t ht
    obtain ⟨⟨j, hj⟩, rfl⟩ := List.mem_iff_get.mp ht
    obtain ⟨_, hpl, hnm⟩ := hall j hj
    exact ⟨hpl, hnm⟩
  refine ⟨ts, ?_, hlen, hmem⟩
  unfold create_target_list
  rcases hp with ⟨e, rfl⟩ | ⟨e, rfl⟩ | rfl
  · cases pdE <;> exact hts
  · cases pkE <;> exact hts
  · cases pkE with
    | error e => exact hts
    | ok pks => simpa using hts

theorem create_target_list_star_fallback_witness :
    ∃ ts, create_target_list (Except.ok ["name", "Teff"])
        (Except.ok [[PyVal.str "Sun", PyVal.num 5700]])
        (Except.error PyErr.keyError) (Except.error PyErr.keyError) = Except.ok ts ∧
      ts.length = [[PyVal.str "Sun", PyVal.num 5700]].length ∧
      ∀ t ∈ ts, t.planet = Option.none ∧ dictGet t.star "name" = Except.ok t.name :=
  create_target_list_star_fallback ["name", "Teff"] [[PyVal.str "Sun", PyVal.num 5700]]
    (Except.error PyErr.keyError) (Except.error PyErr.keyError)
    (Or.inl ⟨PyErr.keyError, rfl⟩)
    (fun row hrow => by
      simp only [List.mem_singleton] at hrow
      subst hrow
      exact ⟨PyVal.str "Sun", rfl⟩)

/-- C7.  Whenever `create_target_list` returns a target list, each
target's `id` is its zero-based position, and its `name` was read off
the planet sub-record's `name` attribute when a planet sub-record was
attached (the planet-data branch) and off the star sub-record's `name`
attribute otherwise. -/
theorem create_target_list_name_id
    (skE : Except PyErr (List String)) (sdE : Except PyErr (List (List PyVal)))
    (pkE : Except PyErr (List String)) (pdE : Except PyErr (List (List PyVal)))
    (ts : List TargetRec)
    (h : create_target_list skE sdE pkE pdE = Except.ok ts) :
    ∀ (j : Nat) (hj : j < ts.length),
      (ts.get ⟨j, hj⟩).id = j ∧
      (match (ts.get ⟨j, hj⟩).planet with
       | some pd => dictGet pd "name" = Except.ok (ts.get ⟨j, hj⟩).name
       | Option.none =>
           dictGet (ts.get ⟨j, hj⟩).star "name" = Except.ok (ts.get ⟨j, hj⟩).name) := by
  unfold create_target_list at h
  cases skE with
  | error e => exact absurd h (by simp)
  | ok sks =>
    cases sdE with
    | error e => exact absurd h (by simp)
    | ok sdata =>
      simp only [] at h
      have hstar : starTargetsFrom sks 0 sdata = Except.ok ts →
          ∀ (j : Nat) (hj : j < ts.length),
            (ts.get ⟨j, hj⟩).id = j ∧
            (match (ts.get ⟨j, hj⟩).planet with
             | some pd => dictGet pd "name" = Except.ok (ts.get ⟨j, hj⟩).name
             | Option.none =>
                 dictGet (ts.get ⟨j, hj⟩).star "name" = Except.ok (ts.get ⟨j, hj⟩).name) := by
        intro hok j hj
        obtain ⟨_, hall⟩ := starTargetsFrom_spec sks sdata 0 ts hok
        obtain ⟨hid, hpl, hnm⟩ := hall j hj
        refine ⟨by simpa using hid, ?_⟩
        rw [hpl]
        exact hnm
      cases pkE with
      | error e => exact hstar h
      | ok pks =>
        cases pdE with
        | error e => exact hstar h
        | ok pdata =>
          have h' : (if pdata.isEmpty then starTargetsFrom sks 0 sdata
              else planetTargetsFrom sks pks 0 (sdata.zip pdata)) = Except.ok ts := h
          by_cases hemp : pdata.isEmpty
          · rw [if_pos hemp] at h'
            exact hstar h'
          · rw [if_neg hemp] at h'
            intro j hj
            obtain ⟨_, hall⟩ :=
              planetTargetsFrom_spec sks pks (sdata.zip pdata) 0 ts h'
            obtain ⟨hid, pd, hpl, hnm⟩ := hall j hj
            refine ⟨by simpa using hid, ?_⟩
            rw [hpl]
            exact hnm

/-- Concrete assembled list used by the witness below. -/
def oneTargetList : List TargetRec :=
  [{ star := [("name", PyVal.str "Sun")], planet := some [("name", PyVal.str "b")],
     name := PyVal.str "b", id := 0 }]

theorem create_target_list_name_id_witness :
    create_target_list (Except.ok ["name"]) (Except.ok [[PyVal.str "Sun"]])
        (Except.ok ["name"]) (Except.ok [[PyVal.str "b"]]) = Except.ok oneTargetList ∧
    ((oneTargetList.get ⟨0, by decide⟩).id = 0 ∧
      (match (oneTargetList.get ⟨0, by decide⟩).planet with
       | some pd => dictGet pd "name" = Except.ok (oneTargetList.get ⟨0, by decide⟩).name
       | Option.none => dictGet (oneTargetList.get ⟨0, by decide⟩).star "name" =
           Except.ok (oneTargetList.get ⟨0, by decide⟩).name)) := by
  refine ⟨by decide, ?_⟩
  exact create_target_list_name_id (Except.ok ["name"]) (Except.ok [[PyVal.str "Sun"]])
    (Except.ok ["name"]) (Except.ok [[PyVal.str "b"]]) oneTargetList (by decide) 0 (by decide)

/-- C4 (amended).  On a target list in which every target carries a
resolvable star name *and* a planet sub-record with a resolvable name --
the shape produced by the planet branch of `create_target_list` --
`searchTarget` returns, in order, exactly the targets whose compacted
star name or compacted planet name contains the compacted query as a
substring, and raises nothing.  (On star-only lists the claim fails:
see the counterexample.) -/
theorem searchTarget_filters_amended (q : String) (ts : List TargetRec)
    (h : ∀ t ∈ ts, (∃ v, dictGet t.star "name" = Except.ok v) ∧
      (∃ w, planetNameOf t = Except.ok w)) :
    searchTarget ts q = Except.ok (ts.filter (matchesB (compactString q))) := by
  unfold searchTarget
  induction ts with
  | nil => rfl
  | cons t ts ih =>
    obtain ⟨⟨v, hv⟩, ⟨w, hw⟩⟩ := h t (by simp)
    have hrest := ih (fun s hs => h s (by simp [hs]))
    unfold searchLoop
    rw [hv]
    dsimp only
    by_cases h1 : reSearch (compactString q) (compactString (pyStr v)) = true
    · rw [if_pos h1, hrest]
      dsimp only
      have hm : matchesB (compactString q) t = true := by
        unfold matchesB starMatch
        simp [hv, h1]
      simp [List.filter_cons, hm]
    · rw [if_neg h1, hw]
      dsimp only
      have hsm : starMatch (compactString q) t = false := by
        unfold starMatch
        rw [hv]
        dsimp only
        simpa using h1
      by_cases h2 : reSearch (compactString q) (compactString (pyStr w)) = true
      · rw [if_pos h2, hrest]
        dsimp only
        have hm : matchesB (compactString q) t = true := by
          unfold matchesB planetMatch
          simp [hsm, hw, h2]
        simp [List.filter_cons, hm]
      · rw [if_neg h2, hrest]
        have hm : matchesB (compactString q) t = false := by
          unfold matchesB planetMatch
          rw [hsm, hw]
          dsimp only
          simpa using h2
        simp [List.filter_cons, hm]

/-- A star-only target, as the star-only branch of
`create_target_list` builds them: the `planet` attribute was never
assigned. -/
def sunOnlyTarget : TargetRec :=
  { star := [("name", PyVal.str "Sun")], planet := Option.none,
    name := PyVal.str "Sun", id := 0 }

/-- C4 counterexample to the claim as stated ("for every target list
... without raising"): on a star-only target list (which
`create_target_list` produces whenever planet data is absent, and which
`searchTarget` is documented to serve) a query that does not match the
star name forces the read of `target.planet`, an attribute the
assembler never assigned, so `searchTarget` raises `AttributeError`
instead of returning the empty match list. -/
theorem searchTarget_starOnly_raises_cex :
    searchTarget [sunOnlyTarget] "zz" = Except.error PyErr.attributeError := by
  decide

/-- Concrete target with both names, matching the spec's example. -/
def hd209Target : TargetRec :=
  { star := [("name", PyVal.str "HD 209458")],
    planet := some [("name", PyVal.str "HD 209458 b")],
    name := PyVal.str "HD 209458 b", id := 0 }

theorem searchTarget_filters_witness :
    (∀ t ∈ [hd209Target], (∃ v, dictGet t.star "name" = Except.ok v) ∧
      (∃ w, planetNameOf t = Except.ok w)) ∧
    searchTarget [hd209Target] "hd-209458 b" =
      Except.ok ([hd209Target].filter (matchesB (compactString "hd-209458 b"))) ∧
    [hd209Target].filter (matchesB (compactString "hd-209458 b")) = [hd209Target] := by
  have hp : ∀ t ∈ [hd209Target], (∃ v, dictGet t.star "name" = Except.ok v) ∧
      (∃ w, planetNameOf t = Except.ok w) := by
    intro t ht
    simp only [List.mem_singleton] at ht
    subst ht
    exact ⟨⟨PyVal.str "HD 209458", rfl⟩, ⟨PyVal.str "HD 209458 b", rfl⟩⟩
  exact ⟨hp, searchTarget_filters_amended "hd-209458 b" [hd209Target] hp, by decide⟩

/-- Concrete delimited-text table whose second star header carries an
unparseable unit annotation. -/
def bananaTable : AsciiTable :=
  ⟨[("star name", [PyVal.str "Sun"]), ("star Teff [banana]", [PyVal.num 5700])]⟩

/-- C3 (amended).  The lenient-degrade policy holds for the spreadsheet
reader: its per-column unit parse never raises, an empty units cell is
dimensionless with no warning, a non-empty unparseable cell is
dimensionless with the warning `Unrecognised physical units`, and a
parseable cell yields its unit silently.  The delimited-text reader,
however, parses header unit tokens *unguarded*: an unparseable
three-token header raises `ValueError`, any such header anywhere in the
selection aborts `star_data`/`planet_data`, and the error propagates
from `entity_units` through `entity_data`, halting ingestion. -/
theorem unit_parsing_policy_amended :
    (∀ (uParse : String → Option PhysUnit) (s : String),
        ∃ r, xlsx_unit_of uParse s = Except.ok r) ∧
    (∀ (uParse : String → Option PhysUnit),
        xlsx_unit_of uParse "" = Except.ok (Option.none, [])) ∧
    (∀ (uParse : String → Option PhysUnit) (s : String), 0 < s.length →
        uParse (stripUnitString s) = Option.none →
        xlsx_unit_of uParse s =
          Except.ok (Option.none, ["Unrecognised physical units"])) ∧
    (∀ (uParse : String → Option PhysUnit) (s : String) (d : PhysUnit),
        0 < s.length → uParse (stripUnitString s) = some d →
        xlsx_unit_of uParse s = Except.ok (some d, [])) ∧
    (∀ (uParse : String → Option PhysUnit) (k : String),
        (pySplitSpace k).length = 3 →
        uParse (stripUnitString ((pySplitSpace k).getD 2 "")) = Option.none →
        csv_unit_of uParse k = Except.error PyErr.valueError) ∧
    (∀ (uParse : String → Option PhysUnit) (t : AsciiTable) (token k : String),
        k ∈ selCols t token → (∀ b, csv_unit_of uParse k ≠ Except.ok b) →
        ∃ e, entity_units uParse t token = Except.error e) ∧
    (∀ (uParse : String → Option PhysUnit) (t : AsciiTable) (token : String)
        (e : PyErr), entity_units uParse t token = Except.error e →
        entity_data uParse t token = Except.error e) := by
  refine ⟨?_, ?_, ?_, ?_, ?_, ?_, ?_⟩
  · intro uParse s
    unfold xlsx_unit_of
    by_cases hlen : 0 < s.length
    · rw [if_pos hlen]
      unfold uUnit
      cases hp : uParse (stripUnitString s) with
      | some d => exact ⟨(some d, []), rfl⟩
      | none => exact ⟨(Option.none, ["Unrecognised physical units"]), rfl⟩
    · rw [if_neg hlen]
      exact ⟨(Option.none, []), rfl⟩
  · intro uParse
    rfl
  · intro uParse s hlen hp
    unfold xlsx_unit_of uUnit
    rw [if_pos hlen, hp]
  · intro uParse s d hlen hp
    unfold xlsx_unit_of uUnit
    rw [if_pos hlen, hp]
  · intro uParse k h3 hp
    unfold csv_unit_of uUnit
    rw [if_pos h3, hp]
  · intro uParse t token k hk hbad
    exact mapE_error_of_mem (csv_unit_of uParse) (selCols t token) k hk hbad
  · intro uParse t token e he
    unfold entity_data
    rw [he]

/-- C3 counterexample to the claim as stated ("unit parsing never
raises ... a malformed unit never halts ingestion"): in the
delimited-text reader a header `star Teff [banana]` with an
unrecognised unit makes the unit pass raise `ValueError`, and
`star_data` (here `entity_data` at token `star`) aborts with that
error instead of degrading to dimensionless. -/
theorem csv_unit_raises_cex :
    entity_units astropyUnitTable bananaTable "star" = Except.error PyErr.valueError ∧
    entity_data astropyUnitTable bananaTable "star" = Except.error PyErr.valueError := by
  exact ⟨by decide, by decide⟩

theorem unit_parsing_policy_witness :
    (0 < ("[banana]" : String).length ∧
      astropyUnitTable (stripUnitString "[banana]") = Option.none ∧
      xlsx_unit_of astropyUnitTable "[banana]" =
        Except.ok (Option.none, ["Unrecognised physical units"])) ∧
    (0 < ("[K]" : String).length ∧
      astropyUnitTable (stripUnitString "[K]") = some "K" ∧
      xlsx_unit_of astropyUnitTable "[K]" = Except.ok (some "K", [])) ∧
    ((pySplitSpace "star Teff [banana]").length = 3 ∧
      astropyUnitTable (stripUnitString ((pySplitSpace "star Teff [banana]").getD 2 ""))
        = Option.none ∧
      csv_unit_of astropyUnitTable "star Teff [banana]" = Except.error PyErr.valueError) :=
  ⟨⟨by decide, by decide,
      unit_parsing_policy_amended.2.2.1 astropyUnitTable "[banana]" (by decide) (by decide)⟩,
   ⟨by decide, by decide,
      unit_parsing_policy_amended.2.2.2.1 astropyUnitTable "[K]" "K" (by decide) (by decide)⟩,
   ⟨by decide, by decide,
      unit_parsing_policy_amended.2.2.2.2.1 astropyUnitTable "star Teff [banana]"
        (by decide) (by decide)⟩⟩

/-- C8 (amended).  For the delimited-text reader: a column belongs to an
entity exactly when its header contains the entity token as a
substring; the field name is the second single-space-separated token of
the header; a unit is parsed from the third token, once per field, *iff
the header consists of exactly three tokens* (headers with two, or with
four or more, tokens pass their values through without a unit), and the
parsed unit is applied to every value of that column. -/
theorem csv_schema_amended (uParse : String → Option PhysUnit) (t : AsciiTable)
    (token : String) (us : List (Option PhysUnit)) (rows : List (List PyVal))
    (hk : ∀ k ∈ selCols t token, 2 ≤ (pySplitSpace k).length)
    (hu : entity_units uParse t token = Except.ok us)
    (hd : entity_data uParse t token = Except.ok rows) :
    entity_keys t token =
      Except.ok ((selCols t token).map (fun k => (pySplitSpace k).getD 1 "")) ∧
    us.length = (selCols t token).length ∧
    (∀ (n : Nat) (hn : n < (selCols t token).length),
      us.getD n Option.none =
        (if (pySplitSpace ((selCols t token).get ⟨n, hn⟩)).length = 3 then
          uParse (stripUnitString
            ((pySplitSpace ((selCols t token).get ⟨n, hn⟩)).getD 2 ""))
        else Option.none)) ∧
    rows.length = numRows t (selCols t token) ∧
    (∀ (i : Nat) (hi : i < rows.length) (n : Nat)
        (hn : n < (rows.get ⟨i, hi⟩).length),
      Except.ok ((rows.get ⟨i, hi⟩).get ⟨n, hn⟩) =
        applyUnit ((rowVals t (selCols t token) i).getD n (PyVal.str ""))
          (us.getD n Option.none)) := by
  have hu0 := hu
  unfold entity_units at hu
  have hulen : us.length = (selCols t token).length :=
    mapE_ok_length (csv_unit_of uParse) (selCols t token) us hu
  refine ⟨?_, hulen, ?_, ?_, ?_⟩
  · unfold entity_keys
    apply mapE_ok_map
    intro k hkmem
    have h2 := hk k hkmem
    have hlt : 1 < (pySplitSpace k).length := by omega
    rw [List.get?_eq_get hlt]
    dsimp only
    exact congrArg Except.ok (List.getD_eq_get _ _ hlt).symm
  · intro n hn
    have hn2 : n < us.length := by omega
    have hcs := mapE_ok_get (csv_unit_of uParse) (selCols t token) us hu n hn hn2
    unfold csv_unit_of at hcs
    rw [List.getD_eq_get us Option.none hn2]
    by_cases h3 : (pySplitSpace ((selCols t token).get ⟨n, hn⟩)).length = 3
    · rw [if_pos h3] at hcs
      unfold uUnit at hcs
      cases hp : uParse (stripUnitString
          ((pySplitSpace ((selCols t token).get ⟨n, hn⟩)).getD 2 "")) with
      | some d =>
        rw [hp] at hcs
        dsimp only at hcs
        injection hcs with hcs
        rw [if_pos h3, ← hcs]
      | none =>
        rw [hp] at hcs
        exact absurd hcs (by simp)
    · rw [if_neg h3] at hcs
      injection hcs with hcs
      rw [if_neg h3, ← hcs]
  · unfold entity_data at hd
    rw [hu0] at hd
    have := mapE_ok_length _ _ _ hd
    simpa using this
  · unfold entity_data at hd
    rw [hu0] at hd
    intro i hi n hn
    have hrlen : rows.length = (List.range (numRows t (selCols t token))).length :=
      mapE_ok_length _ _ _ hd
    have hi2 : i < (List.range (numRows t (selCols t token))).length := by omega
    have hrow := mapE_ok_get _ _ _ hd i hi2 hi
    have hidx : (List.range (numRows t (selCols t token))).get ⟨i, hi2⟩ = i := by
      simp [List.get_eq_getElem]
    rw [hidx] at hrow
    have hclen : (rows.get ⟨i, hi⟩).length =
        ((rowVals t (selCols t token) i).zip us).length :=
      mapE_ok_length _ _ _ hrow
    have hn2 : n < ((rowVals t (selCols t token) i).zip us).length := by omega
    have hcell := mapE_ok_get _ _ _ hrow n hn2 hn
    have hzip : ((rowVals t (selCols t token) i).zip us).get ⟨n, hn2⟩ =
        ((rowVals t (selCols t token) i).get ⟨n, by
            rw [List.length_zip] at hn2; omega⟩,
          us.get ⟨n, by rw [List.length_zip] at hn2; omega⟩) := by
      simp [List.get_eq_getElem, List.getElem_zip]
    rw [hzip] at hcell
    have hb1 : n < (rowVals t (selCols t token) i).length := by
      rw [List.length_zip] at hn2; omega
    have hb2 : n < us.length := by
      rw [List.length_zip] at hn2; omega
    rw [List.getD_eq_get _ _ hb1, List.getD_eq_get _ _ hb2]
    exact hcell.symm

/-- Concrete delimited-text table for the witness: a two-token header,
an exactly-three-token header with unit, and a planet column that the
star selection must ignore. -/
def starKTable : AsciiTable :=
  ⟨[("star name", [PyVal.str "Sun"]), ("star Teff [K]", [PyVal.num 5700]),
    ("planet name", [PyVal.str "b"])]⟩

theorem csv_schema_amended_witness :
    (∀ k ∈ selCols starKTable "star", 2 ≤ (pySplitSpace k).length) ∧
    (entity_keys starKTable "star" =
      Except.ok ((selCols starKTable "star").map (fun k => (pySplitSpace k).getD 1 "")) ∧
    [Option.none, some "K"].length = (selCols starKTable "star").length ∧
    (∀ (n : Nat) (hn : n < (selCols starKTable "star").length),
      [Option.none, some "K"].getD n Option.none =
        (if (pySplitSpace ((selCols starKTable "star").get ⟨n, hn⟩)).length = 3 then
          astropyUnitTable (stripUnitString
            ((pySplitSpace ((selCols starKTable "star").get ⟨n, hn⟩)).getD 2 ""))
        else Option.none)) ∧
    [[PyVal.str "Sun", PyVal.qty 5700 "K"]].length =
      numRows starKTable (selCols starKTable "star") ∧
    (∀ (i : Nat) (hi : i < [[PyVal.str "Sun", PyVal.qty 5700 "K"]].length) (n : Nat)
        (hn : n < ([[PyVal.str "Sun", PyVal.qty 5700 "K"]].get ⟨i, hi⟩).length),
      Except.ok (([[PyVal.str "Sun", PyVal.qty 5700 "K"]].get ⟨i, hi⟩).get ⟨n, hn⟩) =
        applyUnit ((rowVals starKTable (selCols starKTable "star") i).getD n (PyVal.str ""))
          ([Option.none, some "K"].getD n Option.none))) := by
  refine ⟨by decide, ?_⟩
  exact csv_schema_amended astropyUnitTable starKTable "star"
    [Option.none, some "K"] [[PyVal.str "Sun", PyVal.qty 5700 "K"]]
    (by decide) (by decide) (by decide)

/-- Concrete table whose second header has four tokens, the third of
which is a parseable unit annotation. -/
def fourTokenTable : AsciiTable :=
  ⟨[("star name", [PyVal.str "Sun"]), ("star Teff [K] x", [PyVal.num 5700])]⟩

/-- C8 counterexample to the claim as stated ("when a third token is
present it is parsed as a unit ... and applied to every value of that
column"): the header `star Teff [K] x` has a third token, `[K]`, whose
unit parses fine, yet because the header has four tokens -- the code
tests for a token count of exactly three -- no unit is parsed and the
column's values pass through bare. -/
theorem csv_fourToken_cex :
    (pySplitSpace "star Teff [K] x").get? 2 = some "[K]" ∧
    astropyUnitTable (stripUnitString "[K]") = some "K" ∧
    entity_units astropyUnitTable fourTokenTable "star" =
      Except.ok [Option.none, Option.none] ∧
    entity_data astropyUnitTable fourTokenTable "star" =
      Except.ok [[PyVal.str "Sun", PyVal.num 5700]] := by
  exact ⟨by decide, by decide, by decide, by decide⟩

end ExoRad
